import Mathlib

/-!
Verification of the landez tile library (src/landez/) against its
natural-language specification.  Each Python function relevant to the
claims is shallowly embedded: pure numeric code becomes functions over
ℝ/ℤ/ℕ (Python floats are idealised as reals; `round` and `int()` are
modelled exactly as round-half-away-from-zero and truncation toward
zero), string manipulation becomes functions over `List Char`/`String`,
and effectful retry/removal loops become functions over explicit oracles
describing the outcome of each I/O attempt.
-/

namespace Landez

open Real

/-! ## Python numeric primitives

`pyRound` models Python 2's builtin `round` (round half away from zero);
`pyTrunc` models `int()` applied to a float (truncation toward zero). -/

noncomputable def pyRound (r : ℝ) : ℤ :=
  if 0 ≤ r then ⌊r + 1 / 2⌋ else -⌊-r + 1 / 2⌋

noncomputable def pyTrunc (r : ℝ) : ℤ :=
  if 0 ≤ r then ⌊r⌋ else -⌊-r⌋

/-- Python `range(a, b)` over integers: `[a, a+1, ..., b-1]`. -/
def intRange (a b : ℤ) : List ℤ :=
  (List.range (b - a).toNat).map (fun i => a + (i : ℤ))

/-! ## proj.py : GoogleProjection -/

/-- proj.py line 5: `DEG_TO_RAD = pi/180`. -/
noncomputable def DEG_TO_RAD : ℝ := π / 180

/-- proj.py lines 11-14: `minmax(a,b,c)` is `min(max(a,b),c)`. -/
noncomputable def minmax (a b c : ℝ) : ℝ := min (max a b) c

/-- proj.py line 51, the x pixel of `GoogleProjection.project_pixels`:
`e = round(d[0] + ll[0] * self.Bc[zoom])`.  The precomputed tables
satisfy `Bc[z] = c/360`, `Cc[z] = c/(2π)`, `zc[z] = (c/2, c/2)` with
`c = tilesize * 2^z` (proj.py lines 40-47), used here in closed form. -/
noncomputable def projE (tilesize : ℕ) (lon : ℝ) (zoom : ℕ) : ℤ :=
  pyRound ((tilesize : ℝ) * 2 ^ zoom / 2 + lon * ((tilesize : ℝ) * 2 ^ zoom / 360))

/-- proj.py line 52: `f = minmax(sin(DEG_TO_RAD * ll[1]), -0.9999, 0.9999)`. -/
noncomputable def latSin (lat : ℝ) : ℝ :=
  minmax (Real.sin (DEG_TO_RAD * lat)) (-0.9999) 0.9999

/-- proj.py line 53, the y pixel of `GoogleProjection.project_pixels`:
`g = round(d[1] + 0.5 * log((1+f)/(1-f)) * -self.Cc[zoom])`. -/
noncomputable def projG (tilesize : ℕ) (lat : ℝ) (zoom : ℕ) : ℤ :=
  pyRound ((tilesize : ℝ) * 2 ^ zoom / 2 +
    0.5 * Real.log ((1 + latSin lat) / (1 - latSin lat)) * -((tilesize : ℝ) * 2 ^ zoom / (2 * π)))

/-- proj.py lines 49-54, `GoogleProjection.project_pixels` (called
`fromLLtoPixel` by tiles.py line 136 — the method was renamed in
proj.py without updating that call site; the formula is the same). -/
noncomputable def project_pixels (tilesize : ℕ) (ll : ℝ × ℝ) (zoom : ℕ) : ℤ × ℤ :=
  (projE tilesize ll.1 zoom, projG tilesize ll.2 zoom)

/-- `int(px / tilesize)` applied to a (integer-valued) pixel coordinate
(proj.py lines 117-118 and 121-122, tiles.py lines 139-140 and 143-144). -/
noncomputable def pixelTileIndex (tilesize : ℕ) (p : ℤ) : ℤ :=
  pyTrunc ((p : ℝ) / (tilesize : ℝ))

/-- One axis of the tile loops in `tileslist`: Python
`for v in range(lo, hi+1)` keeping only `v` with
`not (v < 0 or v >= 2**z)` (proj.py lines 117-124,
tiles.py lines 139-146). -/
def tileAxisList (lo hi : ℤ) (z : ℕ) : List ℤ :=
  (intRange lo (hi + 1)).filter (fun v => decide (0 ≤ v) && decide (v < 2 ^ z))

/-- The body of the `for z in zoomlevels` loop of `tileslist`
(proj.py lines 113-125, tiles.py lines 135-147): project the top-left
corner `(xmin, ymax)` and the bottom-right corner `(xmax, ymin)`,
divide by the tile size, and enumerate the x/y grid, skipping
out-of-range indices. -/
noncomputable def tilesForZoom (tilesize : ℕ) (xmin ymin xmax ymax : ℝ) (z : ℕ) :
    List (ℕ × ℤ × ℤ) :=
  let px0 := project_pixels tilesize (xmin, ymax) z
  let px1 := project_pixels tilesize (xmax, ymin) z
  (tileAxisList (pixelTileIndex tilesize px0.1) (pixelTileIndex tilesize px1.1) z).flatMap
    (fun x =>
      (tileAxisList (pixelTileIndex tilesize px0.2) (pixelTileIndex tilesize px1.2) z).map
        (fun y => (z, x, y)))

/-- `InvalidCoverageError` (proj.py lines 17-19, tiles.py lines 61-63). -/
inductive CoverageError where
  | invalidCoverage
  deriving DecidableEq

/-- tiles.py lines 117-148, `TilesManager.tileslist` after the bounding
box has been destructured.  Validation order follows the source: the
empty zoom-list check (line 117), then the coordinate-bound check
(lines 121-123), then the ordering check (lines 125-126); only then are
tiles enumerated. -/
noncomputable def tileslistChecked (tilesize : ℕ) (xmin ymin xmax ymax : ℝ)
    (zoomlevels : List ℕ) : Except CoverageError (List (ℕ × ℤ × ℤ)) :=
  if zoomlevels.length = 0 then .error .invalidCoverage
  else if |xmin| > 180 ∨ |xmax| > 180 ∨ |ymin| > 90 ∨ |ymax| > 90 then
    .error .invalidCoverage
  else if xmin ≥ xmax ∨ ymin ≥ ymax then .error .invalidCoverage
  else .ok (zoomlevels.flatMap (tilesForZoom tilesize xmin ymin xmax ymax))

/-- tiles.py lines 111-148, `TilesManager.tileslist`.  The bounding box
is modelled as a list of reals so that the `len(bbox) != 4` check of
line 117 is expressible.  (proj.py lines 98-126,
`GoogleProjection.tileslist`, performs the same checks minus the
zoom-list one, which `GoogleProjection.__init__` lines 30-32 does
instead.) -/
noncomputable def tileslist (tilesize : ℕ) (bbox : List ℝ) (zoomlevels : List ℕ) :
    Except CoverageError (List (ℕ × ℤ × ℤ)) :=
  match bbox with
  | [xmin, ymin, xmax, ymax] => tileslistChecked tilesize xmin ymin xmax ymax zoomlevels
  | _ => .error .invalidCoverage

/-! ## The TMS row flip

Modelled from the spec: `landez/util.py` (imported by cache.py line 6 as
`from .util import flip_y`) is not among the source files; the spec's
glossary defines the TMS flip as `row_tms = 2^z - 1 - row_xyz`, which
matches the formula written inline as `y_mercator = (2**z - 1) - y` in
sources.py line 91, reader.py line 63 and tiles.py line 155. -/

def flip_y (y : ℤ) (z : ℕ) : ℤ := 2 ^ z - 1 - y

/-! ## cache.py : Disk cache -/

/-- The character class kept by the regex
`re.sub(r'[^a-z^A-Z^0-9^_]+', '', ...)` of cache.py line 69.  Inside a
character class only a leading `^` negates; the later `^` occurrences
are literal, so the negated class excludes `a-z`, `A-Z`, `0-9`, `_`
and the caret `^` itself — all five survive. -/
def keepChar (c : Char) : Bool :=
  (decide ('a' ≤ c) && decide (c ≤ 'z')) || (decide ('A' ≤ c) && decide (c ≤ 'Z')) ||
    (decide ('0' ≤ c) && decide (c ≤ '9')) || c == '_' || c == '^'

/-- Python 2 `str.lower` on a byte string: lowercase ASCII `A-Z` only. -/
def lowerChar (c : Char) : Char :=
  if 'A' ≤ c ∧ c ≤ 'Z' then Char.ofNat (c.toNat + 32) else c

/-- cache.py line 69: `re.sub(r'[^a-z^A-Z^0-9^_]+', '',
basename.replace("/","_").lower())`.  Strings are modelled as
`List Char`; `replace("/","_")` on a one-character pattern is a
character-wise map. -/
def sanitizeBasename (basename : List Char) : List Char :=
  ((basename.map (fun c => if c = '/' then '_' else c)).map lowerChar).filter keepChar

/-- The mutable fields of a `Disk` cache relevant to the `basename`
setter (cache.py lines 55-70): `_basefolder` is fixed at construction,
`folder` is recomputed from it on every assignment to `basename`. -/
structure DiskState where
  basefolder : List Char
  folder : List Char
  basename : List Char
  deriving DecidableEq

/-- cache.py lines 66-70, the `basename` setter:
`self._basename = basename; subfolder = <sanitized>;
self.folder = os.path.join(self._basefolder, subfolder)`.
`os.path.join` of two relative-style segments is modelled as
interposing `'/'`. -/
def setBasename (st : DiskState) (b : List Char) : DiskState :=
  { st with basename := b, folder := st.basefolder ++ '/' :: sanitizeBasename b }

/-- cache.py lines 72-75, the `scheme` setter: `assert scheme in
('wmts', 'xyz', 'tms')` then `self._scheme = 'xyz' if (scheme ==
'wmts') else scheme`.  A failed assertion is `none`. -/
def setScheme (scheme : String) : Option String :=
  if scheme = "wmts" ∨ scheme = "xyz" ∨ scheme = "tms" then
    some (if scheme = "wmts" then "xyz" else scheme)
  else none

/-- cache.py lines 77-83, `Disk.tile_file`: directory `z/x` and file
name `row + extension`, where the row is flipped unless the scheme is
`'xyz'`. -/
def disk_tile_file (scheme : String) (extension : String) (z : ℕ) (x y : ℤ) :
    String × String :=
  (toString z ++ "/" ++ toString x,
   toString (if scheme ≠ "xyz" then flip_y y z else y) ++ extension)

/-- cache.py lines 95-103, the parent-directory pruning loop of
`Disk.remove`: `i = 0; while i <= 3: try: os.rmdir(parent); parent =
dirname(parent); i += 1 except OSError: break`.  `rmdirOk k` tells
whether the `k`-th `os.rmdir` call succeeds (it fails with `OSError`
when the directory is non-empty); the result is the number of
directories actually removed.  The loop condition `i <= 3` with `i`
starting at 0 admits four successful iterations, hence the fuel 4. -/
def removeLoop (rmdirOk : ℕ → Bool) : ℕ → ℕ → ℕ
  | 0, i => i
  | fuel + 1, i => if rmdirOk i then removeLoop rmdirOk fuel (i + 1) else i

def removeParentLevels (rmdirOk : ℕ → Bool) : ℕ := removeLoop rmdirOk 4 0

/-! ## sources.py : TileDownloader -/

/-- __init__.py line 17 (also tiles.py line 47): `DOWNLOAD_RETRIES = 3`. -/
def DOWNLOAD_RETRIES : ℕ := 3

/-- The local variables in scope at `self.tiles_url.format(**locals())`
(sources.py line 165): the method arguments `self`, `z`, `x`, `y` plus
`size` and `s` assigned on lines 162-163.  `str.format` raises
`KeyError` exactly when the template names a placeholder outside this
set. -/
def knownKeys : List String := ["self", "z", "x", "y", "size", "s"]

inductive DownloadError where
  | unknownKeyword
  | cannotDownload
  deriving DecidableEq

/-- The retry loop of sources.py lines 170-181: up to `fuel` attempts;
`attempt k` is the outcome of the `k`-th try (`some body` on success,
`none` when `urllib2.urlopen`/`assert getcode() == 200`/`read` raises
`AssertionError` or `IOError`).  Returns the result together with the
number of attempts performed. -/
def downloadLoop (attempt : ℕ → Option ℕ) : ℕ → ℕ → (Except Unit ℕ) × ℕ
  | 0, k => (.error (), k)
  | fuel + 1, k =>
      match attempt k with
      | some body => (.ok body, k + 1)
      | none => downloadLoop attempt fuel (k + 1)

/-- sources.py lines 156-182, `TileDownloader.tile`: the URL template is
abstracted to the list of placeholder names it references; if any is
unknown, `DownloadError` is raised at once (lines 164-167) without an
attempt; otherwise up to `DOWNLOAD_RETRIES` attempts are made and
`DownloadError` is raised when all fail (line 182). -/
def downloader_tile (placeholders : List String) (attempt : ℕ → Option ℕ) :
    (Except DownloadError ℕ) × ℕ :=
  if placeholders.all (fun p => decide (p ∈ knownKeys)) then
    match downloadLoop attempt DOWNLOAD_RETRIES 0 with
    | (.ok body, n) => (.ok body, n)
    | (.error _, n) => (.error .cannotDownload, n)
  else (.error .unknownKeyword, 0)

/-! ## tiles.py : MBTilesBuilder.run (tile-set computation) -/

inductive BuildError where
  | invalidCoverage
  | emptyCoverage
  deriving DecidableEq

/-- The `for bbox, levels in self._bboxes` loop of tiles.py lines
342-347: each coverage's `tileslist` result is united (Python `set
.union`) into the accumulator; an `InvalidCoverageError` from
`tileslist` propagates. -/
noncomputable def coverageUnion (tilesize : ℕ) :
    List (List ℝ × List ℕ) → Finset (ℕ × ℤ × ℤ) →
      Except BuildError (Finset (ℕ × ℤ × ℤ))
  | [], acc => .ok acc
  | (bbox, levels) :: rest, acc =>
      match tileslist tilesize bbox levels with
      | .error _ => .error .invalidCoverage
      | .ok l => coverageUnion tilesize rest (acc ∪ l.toFinset)

/-- tiles.py lines 341-350: compute the working set of `run()` as the
set union over all registered coverages; `self.nbtiles =
len(tileslist)`, and `EmptyCoverageError` is raised when it is zero —
before the `prepare_tile` loop of lines 354-356 fetches anything. -/
noncomputable def runTileSet (tilesize : ℕ) (bboxes : List (List ℝ × List ℕ)) :
    Except BuildError (Finset (ℕ × ℤ × ℤ)) :=
  match coverageUnion tilesize bboxes ∅ with
  | .error e => .error e
  | .ok s => if s.card = 0 then .error .emptyCoverage else .ok s

/-! ## tiles.py : ImageExporter -/

/-- Insertion of one integer into a sorted list (ascending). -/
def insertSorted (x : ℤ) : List ℤ → List ℤ
  | [] => [x]
  | y :: ys => if x ≤ y then x :: y :: ys else y :: insertSorted x ys

/-- Python `sorted` on a list of integers (ascending). -/
def sortInts (l : List ℤ) : List ℤ := l.foldr insertSorted []

/-- tiles.py lines 385-399, `ImageExporter.grid_tiles` after the
`tileslist` call: bucket tiles by row `y`, then emit for each `y` (in
ascending order) the list `[(x, y) for x in sorted(grid[y])]`. -/
def gridOf (tiles : List (ℕ × ℤ × ℤ)) : List (List (ℤ × ℤ)) :=
  (sortInts ((tiles.map (fun t => t.2.2)).dedup)).map
    (fun y =>
      (sortInts ((tiles.filter (fun t => t.2.2 == y)).map (fun t => t.2.1))).map
        (fun x => (x, y)))

/-- tiles.py lines 385-399, `ImageExporter.grid_tiles`. -/
noncomputable def grid_tiles (tilesize : ℕ) (bbox : List ℝ) (zoomlevel : ℕ) :
    Except CoverageError (List (List (ℤ × ℤ))) :=
  match tileslist tilesize bbox [zoomlevel] with
  | .error e => .error e
  | .ok tiles => .ok (gridOf tiles)

/-- tiles.py lines 401-421, `ImageExporter.export_image`, reduced to its
geometry: the canvas is `(len(grid[0]) * tile_size, len(grid) *
tile_size)` pixels (lines 407-410; `grid[0]` faults on an empty grid,
modelled as `none`), and each tile `row[j]` of `grid[i]` is pasted at
offset `(j * tile_size, i * tile_size)` (lines 414-420) with no check
that the rows have equal length. -/
def exportLayout (tilesize : ℕ) (grid : List (List (ℤ × ℤ))) :
    Option ((ℕ × ℕ) × List ((ℕ × ℕ) × (ℤ × ℤ))) :=
  match grid with
  | [] => none
  | r0 :: _ =>
      some ((r0.length * tilesize, grid.length * tilesize),
        grid.enum.flatMap (fun ir =>
          ir.2.enum.map (fun jt => ((jt.1 * tilesize, ir.1 * tilesize), jt.2))))

/-! ## Helper lemmas: Python rounding primitives -/

theorem floor_half : ⌊(1 / 2 : ℝ)⌋ = 0 := by
  rw [Int.floor_eq_zero_iff]
  constructor <;> norm_num

theorem pyRound_intCast (n : ℤ) : pyRound (n : ℝ) = n := by
  unfold pyRound
  by_cases h : (0 : ℝ) ≤ (n : ℝ)
  · rw [if_pos h, Int.floor_int_add, floor_half]
    omega
  · rw [if_neg h]
    have h1 : (-(n : ℝ)) = ((-n : ℤ) : ℝ) := by push_cast; ring
    rw [h1, Int.floor_int_add, floor_half]
    omega

theorem le_pyRound {a : ℤ} {r : ℝ} (h : (a : ℝ) ≤ r) : a ≤ pyRound r := by
  unfold pyRound
  by_cases h0 : (0 : ℝ) ≤ r
  · rw [if_pos h0]
    exact Int.le_floor.mpr (by linarith)
  · rw [if_neg h0]
    have h1 : ⌊-r + 1 / 2⌋ < -a + 1 :=
      Int.floor_lt.mpr (by push_cast; linarith)
    omega

theorem pyRound_le {b : ℤ} {r : ℝ} (h : r ≤ (b : ℝ)) : pyRound r ≤ b := by
  unfold pyRound
  by_cases h0 : (0 : ℝ) ≤ r
  · rw [if_pos h0]
    have h1 : ⌊r + 1 / 2⌋ < b + 1 := Int.floor_lt.mpr (by push_cast; linarith)
    omega
  · rw [if_neg h0]
    have h1 : -b ≤ ⌊-r + 1 / 2⌋ := Int.le_floor.mpr (by push_cast; linarith)
    omega

theorem pyTrunc_neg_zero {t : ℕ} {g : ℤ} (h1 : -(t : ℤ) < g) (h2 : g ≤ 0) :
    pyTrunc ((g : ℝ) / (t : ℝ)) = 0 := by
  have ht : 0 < t := by omega
  have htR : (0 : ℝ) < (t : ℝ) := by exact_mod_cast ht
  rcases lt_or_eq_of_le h2 with hlt | rfl
  · have hr : (g : ℝ) / (t : ℝ) < 0 := by
      apply div_neg_of_neg_of_pos _ htR
      exact_mod_cast hlt
    unfold pyTrunc
    rw [if_neg (not_le.mpr hr)]
    have hgt : (-(g : ℝ)) < (t : ℝ) := by
      exact_mod_cast (by omega : (-g : ℤ) < (t : ℤ))
    have : ⌊-((g : ℝ) / (t : ℝ))⌋ = 0 := by
      rw [Int.floor_eq_zero_iff]
      constructor
      · linarith
      · rw [← neg_div, div_lt_one htR]
        exact hgt
    rw [this]
    simp
  · unfold pyTrunc
    rw [if_pos (by simp)]
    simp

theorem pyTrunc_div_eq {t : ℕ} {g k : ℤ} (hk : 0 ≤ k) (h1 : (t : ℤ) * k ≤ g)
    (h2 : g < (t : ℤ) * (k + 1)) : pyTrunc ((g : ℝ) / (t : ℝ)) = k := by
  have ht : 0 < t := by nlinarith
  have htR : (0 : ℝ) < (t : ℝ) := by exact_mod_cast ht
  have hg : 0 ≤ g := by nlinarith
  have hr : (0 : ℝ) ≤ (g : ℝ) / (t : ℝ) := by positivity
  unfold pyTrunc
  rw [if_pos hr]
  rw [Int.floor_eq_iff]
  have h1R : (t : ℝ) * (k : ℝ) ≤ (g : ℝ) := by exact_mod_cast h1
  have h2R : (g : ℝ) < (t : ℝ) * ((k : ℝ) + 1) := by exact_mod_cast h2
  constructor
  · rw [le_div_iff₀ htR]
    linarith
  · rw [div_lt_iff₀ htR]
    linarith

/-! ## Helper lemmas: interval bounds for `log 19999` and `π`

`19999` is the value of `(1 + 0.9999) / (1 - 0.9999)`, the argument of
the logarithm in `projG` once the latitude clamp has saturated at a
pole. -/

theorem lt_log19999 : (9.7 : ℝ) < Real.log 19999 := by
  have h1 : Real.log 16384 < Real.log 19999 :=
    Real.log_lt_log (by norm_num) (by norm_num)
  have h2 : Real.log 16384 = 14 * Real.log 2 := by
    rw [show (16384 : ℝ) = 2 ^ 14 by norm_num, Real.log_pow]
    push_cast
    ring
  have h3 := Real.log_two_gt_d9
  linarith

theorem log19999_lt : Real.log 19999 < 10.4 := by
  have h1 : Real.log 19999 < Real.log 32768 :=
    Real.log_lt_log (by norm_num) (by norm_num)
  have h2 : Real.log 32768 = 15 * Real.log 2 := by
    rw [show (32768 : ℝ) = 2 ^ 15 by norm_num, Real.log_pow]
    push_cast
    ring
  have h3 := Real.log_two_lt_d9
  linarith

/-! ## Helper lemmas: the projection at the whole-world corners -/

theorem latSin_at_90 : latSin 90 = 0.9999 := by
  unfold latSin DEG_TO_RAD minmax
  rw [show π / 180 * (90 : ℝ) = π / 2 by ring, Real.sin_pi_div_two]
  rw [max_eq_left (by norm_num), min_eq_right (by norm_num)]

theorem latSin_at_neg90 : latSin (-90) = -0.9999 := by
  unfold latSin DEG_TO_RAD minmax
  rw [show π / 180 * (-90 : ℝ) = -(π / 2) by ring, Real.sin_neg, Real.sin_pi_div_two]
  rw [max_eq_right (by norm_num), min_eq_left (by norm_num)]

theorem projE_world_left (z : ℕ) : projE 256 (-180) z = 0 := by
  unfold projE
  rw [show ((256 : ℕ) : ℝ) * 2 ^ z / 2 + (-180) * (((256 : ℕ) : ℝ) * 2 ^ z / 360) =
        ((0 : ℤ) : ℝ) by push_cast; ring]
  exact pyRound_intCast 0

theorem projE_world_right (z : ℕ) : projE 256 180 z = 256 * 2 ^ z := by
  unfold projE
  rw [show ((256 : ℕ) : ℝ) * 2 ^ z / 2 + (180 : ℝ) * (((256 : ℕ) : ℝ) * 2 ^ z / 360) =
        ((256 * 2 ^ z : ℤ) : ℝ) by push_cast; ring]
  exact pyRound_intCast _

theorem projG_top0_bounds : -256 < projG 256 90 0 ∧ projG 256 90 0 ≤ 0 := by
  have hπ1 : (3.14 : ℝ) < π := Real.pi_gt_d2
  have hπ2 : π < 3.15 := Real.pi_lt_d2
  have hπ0 : (0 : ℝ) < π := by linarith
  have hL1 := lt_log19999
  have hL2 := log19999_lt
  unfold projG
  rw [latSin_at_90, show (1 + (0.9999 : ℝ)) / (1 - 0.9999) = 19999 by norm_num]
  rw [show ((256 : ℕ) : ℝ) * 2 ^ (0 : ℕ) / 2 +
        0.5 * Real.log 19999 * -(((256 : ℕ) : ℝ) * 2 ^ (0 : ℕ) / (2 * π)) =
        128 - 64 * Real.log 19999 / π by field_simp; ring]
  have hT1 : (190 : ℝ) < 64 * Real.log 19999 / π := by
    rw [lt_div_iff₀ hπ0]; nlinarith
  have hT2 : 64 * Real.log 19999 / π < 240 := by
    rw [div_lt_iff₀ hπ0]; nlinarith
  constructor
  · have h := le_pyRound (a := -255) (r := 128 - 64 * Real.log 19999 / π)
      (by push_cast; linarith)
    omega
  · exact pyRound_le (b := 0) (by push_cast; linarith)

theorem projG_bot0_bounds : 256 ≤ projG 256 (-90) 0 ∧ projG 256 (-90) 0 < 512 := by
  have hπ1 : (3.14 : ℝ) < π := Real.pi_gt_d2
  have hπ2 : π < 3.15 := Real.pi_lt_d2
  have hπ0 : (0 : ℝ) < π := by linarith
  have hL1 := lt_log19999
  have hL2 := log19999_lt
  unfold projG
  rw [latSin_at_neg90, show (1 + (-0.9999 : ℝ)) / (1 - (-0.9999)) = (19999 : ℝ)⁻¹ by norm_num]
  rw [Real.log_inv]
  rw [show ((256 : ℕ) : ℝ) * 2 ^ (0 : ℕ) / 2 +
        0.5 * -Real.log 19999 * -(((256 : ℕ) : ℝ) * 2 ^ (0 : ℕ) / (2 * π)) =
        128 + 64 * Real.log 19999 / π by field_simp; ring]
  have hT1 : (190 : ℝ) < 64 * Real.log 19999 / π := by
    rw [lt_div_iff₀ hπ0]; nlinarith
  have hT2 : 64 * Real.log 19999 / π < 240 := by
    rw [div_lt_iff₀ hπ0]; nlinarith
  constructor
  · exact le_pyRound (a := 256) (by push_cast; linarith)
  · have h := pyRound_le (b := 511) (r := 128 + 64 * Real.log 19999 / π)
      (by push_cast; linarith)
    omega

theorem projG_top1_bounds : -256 < projG 256 90 1 ∧ projG 256 90 1 ≤ 0 := by
  have hπ1 : (3.14 : ℝ) < π := Real.pi_gt_d2
  have hπ2 : π < 3.15 := Real.pi_lt_d2
  have hπ0 : (0 : ℝ) < π := by linarith
  have hL1 := lt_log19999
  have hL2 := log19999_lt
  unfold projG
  rw [latSin_at_90, show (1 + (0.9999 : ℝ)) / (1 - 0.9999) = 19999 by norm_num]
  rw [show ((256 : ℕ) : ℝ) * 2 ^ (1 : ℕ) / 2 +
        0.5 * Real.log 19999 * -(((256 : ℕ) : ℝ) * 2 ^ (1 : ℕ) / (2 * π)) =
        256 - 128 * Real.log 19999 / π by field_simp; ring]
  have hT1 : (380 : ℝ) < 128 * Real.log 19999 / π := by
    rw [lt_div_iff₀ hπ0]; nlinarith
  have hT2 : 128 * Real.log 19999 / π < 480 := by
    rw [div_lt_iff₀ hπ0]; nlinarith
  constructor
  · have h := le_pyRound (a := -255) (r := 256 - 128 * Real.log 19999 / π)
      (by push_cast; linarith)
    omega
  · exact pyRound_le (b := 0) (by push_cast; linarith)

theorem projG_bot1_bounds : 512 ≤ projG 256 (-90) 1 ∧ projG 256 (-90) 1 < 768 := by
  have hπ1 : (3.14 : ℝ) < π := Real.pi_gt_d2
  have hπ2 : π < 3.15 := Real.pi_lt_d2
  have hπ0 : (0 : ℝ) < π := by linarith
  have hL1 := lt_log19999
  have hL2 := log19999_lt
  unfold projG
  rw [latSin_at_neg90, show (1 + (-0.9999 : ℝ)) / (1 - (-0.9999)) = (19999 : ℝ)⁻¹ by norm_num]
  rw [Real.log_inv]
  rw [show ((256 : ℕ) : ℝ) * 2 ^ (1 : ℕ) / 2 +
        0.5 * -Real.log 19999 * -(((256 : ℕ) : ℝ) * 2 ^ (1 : ℕ) / (2 * π)) =
        256 + 128 * Real.log 19999 / π by field_simp; ring]
  have hT1 : (380 : ℝ) < 128 * Real.log 19999 / π := by
    rw [lt_div_iff₀ hπ0]; nlinarith
  have hT2 : 128 * Real.log 19999 / π < 480 := by
    rw [div_lt_iff₀ hπ0]; nlinarith
  constructor
  · exact le_pyRound (a := 512) (by push_cast; linarith)
  · have h := pyRound_le (b := 767) (r := 256 + 128 * Real.log 19999 / π)
      (by push_cast; linarith)
    omega

/-! ## Helper lemmas: tile indices and the whole-world tile lists -/

theorem pti_zero_of {g : ℤ} (h1 : -256 < g) (h2 : g ≤ 0) : pixelTileIndex 256 g = 0 := by
  unfold pixelTileIndex
  exact pyTrunc_neg_zero (t := 256) (by exact_mod_cast h1) h2

theorem pti_one_of {g : ℤ} (h1 : 256 ≤ g) (h2 : g < 512) : pixelTileIndex 256 g = 1 := by
  unfold pixelTileIndex
  exact pyTrunc_div_eq (t := 256) (k := 1) (by omega) (by push_cast; omega)
    (by push_cast; omega)

theorem pti_two_of {g : ℤ} (h1 : 512 ≤ g) (h2 : g < 768) : pixelTileIndex 256 g = 2 := by
  unfold pixelTileIndex
  exact pyTrunc_div_eq (t := 256) (k := 2) (by omega) (by push_cast; omega)
    (by push_cast; omega)

theorem tilesForZoom_apply (tilesize : ℕ) (xmin ymin xmax ymax : ℝ) (z : ℕ) :
    tilesForZoom tilesize xmin ymin xmax ymax z =
      (tileAxisList (pixelTileIndex tilesize (projE tilesize xmin z))
          (pixelTileIndex tilesize (projE tilesize xmax z)) z).flatMap
        (fun x =>
          (tileAxisList (pixelTileIndex tilesize (projG tilesize ymax z))
              (pixelTileIndex tilesize (projG tilesize ymin z)) z).map
            (fun y => (z, x, y))) := rfl

theorem tilesForZoom_world0 : tilesForZoom 256 (-180) (-90) 180 90 0 = [(0, 0, 0)] := by
  rw [tilesForZoom_apply, projE_world_left, projE_world_right]
  rw [pti_zero_of (g := 0) (by omega) (by omega)]
  rw [show (256 * 2 ^ (0 : ℕ) : ℤ) = 256 by norm_num]
  rw [pti_one_of (g := 256) (by omega) (by omega)]
  rw [pti_zero_of projG_top0_bounds.1 projG_top0_bounds.2]
  rw [pti_one_of projG_bot0_bounds.1 projG_bot0_bounds.2]
  decide

theorem tilesForZoom_world1 :
    tilesForZoom 256 (-180) (-90) 180 90 1 = [(1, 0, 0), (1, 0, 1), (1, 1, 0), (1, 1, 1)] := by
  rw [tilesForZoom_apply, projE_world_left, projE_world_right]
  rw [pti_zero_of (g := 0) (by omega) (by omega)]
  rw [show (256 * 2 ^ (1 : ℕ) : ℤ) = 512 by norm_num]
  rw [pti_two_of (g := 512) (by omega) (by omega)]
  rw [pti_zero_of projG_top1_bounds.1 projG_top1_bounds.2]
  rw [pti_two_of projG_bot1_bounds.1 projG_bot1_bounds.2]
  decide

theorem tileslist_quad (tilesize : ℕ) (a b c d : ℝ) (zl : List ℕ) :
    tileslist tilesize [a, b, c, d] zl = tileslistChecked tilesize a b c d zl := rfl

theorem tileslistChecked_ok (tilesize : ℕ) (xmin ymin xmax ymax : ℝ) (zl : List ℕ)
    (hz : ¬zl.length = 0)
    (habs : ¬(|xmin| > 180 ∨ |xmax| > 180 ∨ |ymin| > 90 ∨ |ymax| > 90))
    (hord : ¬(xmin ≥ xmax ∨ ymin ≥ ymax)) :
    tileslistChecked tilesize xmin ymin xmax ymax zl =
      .ok (zl.flatMap (tilesForZoom tilesize xmin ymin xmax ymax)) := by
  unfold tileslistChecked
  rw [if_neg hz, if_neg habs, if_neg hord]

theorem world_tiles_z0 : tileslist 256 [-180, -90, 180, 90] [0] = .ok [(0, 0, 0)] := by
  rw [tileslist_quad,
    tileslistChecked_ok 256 (-180) (-90) 180 90 [0] (by simp) (by norm_num) (by norm_num)]
  simp [tilesForZoom_world0]

theorem world_tiles_z01 :
    tileslist 256 [-180, -90, 180, 90] [0, 1] =
      .ok [(0, 0, 0), (1, 0, 0), (1, 0, 1), (1, 1, 0), (1, 1, 1)] := by
  rw [tileslist_quad,
    tileslistChecked_ok 256 (-180) (-90) 180 90 [0, 1] (by simp) (by norm_num) (by norm_num)]
  simp [tilesForZoom_world0, tilesForZoom_world1]

/-! ## Helper lemmas: the download retry loop -/

theorem downloadLoop_count (attempt : ℕ → Option ℕ) :
    ∀ fuel k, (downloadLoop attempt fuel k).2 ≤ k + fuel := by
  intro fuel
  induction fuel with
  | zero => intro k; simp [downloadLoop]
  | succ n ih =>
      intro k
      unfold downloadLoop
      cases hA : attempt k
      · have h := ih (k + 1)
        simpa using h.trans (by omega)
      · simp

theorem downloadLoop_all_none (attempt : ℕ → Option ℕ) :
    ∀ fuel k, (∀ j, j < k + fuel → attempt j = none) →
      downloadLoop attempt fuel k = (.error (), k + fuel) := by
  intro fuel
  induction fuel with
  | zero => intro k h; simp [downloadLoop]
  | succ n ih =>
      intro k h
      unfold downloadLoop
      rw [h k (by omega)]
      have h2 : k + (n + 1) = (k + 1) + n := by omega
      rw [h2]
      exact ih (k + 1) (fun j hj => h j (by omega))

/-! ## Claim theorems -/

/-- Claim C1: for the standard Web-Mercator projection with the default
tile size (256), `tileslist` over the whole-world bounding box
`(-180, -90, 180, 90)` with zoom levels `[0]` returns exactly
`[(0,0,0)]`, and with zoom levels `[0, 1]` returns exactly
`[(0,0,0),(1,0,0),(1,0,1),(1,1,0),(1,1,1)]`. -/
theorem tileslist_whole_world_small_zooms :
    tileslist 256 [-180, -90, 180, 90] [0] = .ok [(0, 0, 0)] ∧
    tileslist 256 [-180, -90, 180, 90] [0, 1] =
      .ok [(0, 0, 0), (1, 0, 0), (1, 0, 1), (1, 1, 0), (1, 1, 1)] :=
  ⟨world_tiles_z0, world_tiles_z01⟩

/-- Claim C2: `tileslist` returns `InvalidCoverageError`, before
enumerating any tile, for every invalid input: a bounding box that is
not a 4-tuple, an empty zoom-level list, any coordinate exceeding ±180
(longitude) or ±90 (latitude) in absolute value, or a reversed box with
`xmin ≥ xmax` or `ymin ≥ ymax`. -/
theorem tileslist_rejects_invalid_input (tilesize : ℕ) (bbox : List ℝ) (zooms : List ℕ)
    (h : bbox.length ≠ 4 ∨ zooms = [] ∨
      ∃ xmin ymin xmax ymax, bbox = [xmin, ymin, xmax, ymax] ∧
        (|xmin| > 180 ∨ |xmax| > 180 ∨ |ymin| > 90 ∨ |ymax| > 90 ∨
          xmin ≥ xmax ∨ ymin ≥ ymax)) :
    tileslist tilesize bbox zooms = .error .invalidCoverage := by
  rcases bbox with _ | ⟨a, _ | ⟨b, _ | ⟨c, _ | ⟨d, _ | ⟨e, rest⟩⟩⟩⟩⟩
  · rfl
  · rfl
  · rfl
  · rfl
  · rw [tileslist_quad]
    unfold tileslistChecked
    rcases h with h | h | ⟨x1, y1, x2, y2, heq, hcond⟩
    · simp at h
    · subst h
      rw [if_pos (show ([] : List ℕ).length = 0 from rfl)]
    · obtain ⟨rfl, rfl, rfl, rfl⟩ : a = x1 ∧ b = y1 ∧ c = x2 ∧ d = y2 := by
        simpa using heq
      by_cases hz : zooms.length = 0
      · rw [if_pos hz]
      · rw [if_neg hz]
        by_cases habs : |a| > 180 ∨ |c| > 180 ∨ |b| > 90 ∨ |d| > 90
        · rw [if_pos habs]
        · rw [if_neg habs]
          have hord : a ≥ c ∨ b ≥ d := by tauto
          rw [if_pos hord]
  · rfl

theorem tileslist_rejects_invalid_input_w :
    tileslist 256 [] [0] = .error .invalidCoverage ∧
    tileslist 256 [-181, -90, 180, 90] [0] = .error .invalidCoverage ∧
    tileslist 256 [-180, -90, 180, 90] [] = .error .invalidCoverage :=
  ⟨tileslist_rejects_invalid_input 256 [] [0] (Or.inl (by simp)),
   tileslist_rejects_invalid_input 256 [-181, -90, 180, 90] [0]
     (Or.inr (Or.inr ⟨-181, -90, 180, 90, rfl, Or.inl (by norm_num)⟩)),
   tileslist_rejects_invalid_input 256 [-180, -90, 180, 90] [] (Or.inr (Or.inl rfl))⟩

/-- Claim C3: every triple `(z, x, y)` in a list returned by `tileslist`
on a valid bounding box satisfies: `z` is one of the requested zoom
levels, `0 ≤ x < 2^z` and `0 ≤ y < 2^z`; no out-of-range coordinate is
ever emitted. -/
theorem tileslist_tile_bounds (tilesize : ℕ) (bbox : List ℝ) (zooms : List ℕ)
    (l : List (ℕ × ℤ × ℤ)) (h : tileslist tilesize bbox zooms = .ok l) :
    ∀ t ∈ l, t.1 ∈ zooms ∧ (0 ≤ t.2.1 ∧ t.2.1 < 2 ^ t.1) ∧
      (0 ≤ t.2.2 ∧ t.2.2 < 2 ^ t.1) := by
  intro t ht
  rcases bbox with _ | ⟨a, _ | ⟨b, _ | ⟨c, _ | ⟨d, _ | ⟨e, rest⟩⟩⟩⟩⟩
  · exact Except.noConfusion h
  · exact Except.noConfusion h
  · exact Except.noConfusion h
  · exact Except.noConfusion h
  · rw [tileslist_quad] at h
    unfold tileslistChecked at h
    split_ifs at h
    injection h with h
    subst h
    rw [List.mem_flatMap] at ht
    obtain ⟨z, hz, hmem⟩ := ht
    rw [tilesForZoom_apply, List.mem_flatMap] at hmem
    obtain ⟨x, hx, hmap⟩ := hmem
    rw [List.mem_map] at hmap
    obtain ⟨y, hy, rfl⟩ := hmap
    unfold tileAxisList at hx hy
    rw [List.mem_filter] at hx hy
    have hx2 := hx.2
    have hy2 := hy.2
    simp only [Bool.and_eq_true, decide_eq_true_eq] at hx2 hy2
    exact ⟨hz, hx2, hy2⟩
  · exact Except.noConfusion h

theorem tileslist_tile_bounds_w :
    (0 : ℕ) ∈ [0] ∧ ((0 : ℤ) ≤ 0 ∧ (0 : ℤ) < 2 ^ (0 : ℕ)) ∧
      ((0 : ℤ) ≤ 0 ∧ (0 : ℤ) < 2 ^ (0 : ℕ)) :=
  tileslist_tile_bounds 256 [-180, -90, 180, 90] [0] [(0, 0, 0)] world_tiles_z0
    (0, 0, 0) (by decide)

/-- Claim C4: the TMS row flip `y' = 2^z - 1 - y` is an involution: for
every zoom `z ≥ 0` and every row `y` with `0 ≤ y < 2^z`, applying the
flip twice at the same zoom returns `y`. -/
theorem flip_y_involution (z : ℕ) (y : ℤ) (_h1 : 0 ≤ y) (_h2 : y < 2 ^ z) :
    flip_y (flip_y y z) z = y := by
  unfold flip_y
  ring

theorem flip_y_involution_w : flip_y (flip_y 0 1) 1 = 0 :=
  flip_y_involution 1 0 (by decide) (by decide)

/-- Claim C5: the disk cache's `tile_file(z, x, y)` returns directory
`"z/x"` and filename `"row.ext"` where `row = y` when the configured
scheme is `'xyz'` and `row = 2^z - 1 - y` otherwise, and setting the
scheme to `'wmts'` is accepted and behaves identically to `'xyz'`
(the setter stores `'xyz'` for it). -/
theorem disk_tile_file_scheme (extension : String) (z : ℕ) (x y : ℤ) :
    (∀ scheme : String,
        disk_tile_file scheme extension z x y =
          (toString z ++ "/" ++ toString x,
            toString (if scheme = "xyz" then y else 2 ^ z - 1 - y) ++ extension)) ∧
    setScheme "wmts" = some "xyz" ∧ setScheme "wmts" = setScheme "xyz" := by
  refine ⟨fun scheme => ?_, by decide, by decide⟩
  unfold disk_tile_file flip_y
  by_cases h : scheme = "xyz"
  · simp [h]
  · simp [h]

/-- Claim C6 counterexample: the claim says the sanitized basename
segment contains only characters from `[A-Za-z0-9_]`, but the stray
carets inside the regex character class `[^a-z^A-Z^0-9^_]` are literal,
so the caret survives sanitization: `"a^b"` is kept verbatim and `'^'`
is outside the claimed set. -/
theorem sanitize_keeps_caret :
    sanitizeBasename ['a', '^', 'b'] = ['a', '^', 'b'] ∧
    '^' ∈ sanitizeBasename ['a', '^', 'b'] ∧
    ¬(('a' ≤ '^' ∧ '^' ≤ 'z') ∨ ('A' ≤ '^' ∧ '^' ≤ 'Z') ∨
      ('0' ≤ '^' ∧ '^' ≤ '9') ∨ '^' = '_') := by
  decide

/-- Claim C6 (amended): the `basename` setter computes the cache folder
as the configured root joined with a sanitized segment (path separators
normalized to underscores, lowercased, all characters outside
`[A-Za-z0-9_^]` stripped — the caret is retained because the carets
inside the source regex class are literal); the computation is
deterministic and idempotent, so setting the same basename twice yields
the same folder path, and the resulting segment contains only
characters from that allowed set. -/
theorem setBasename_folder_props (st : DiskState) (b : List Char) :
    setBasename (setBasename st b) b = setBasename st b ∧
    (setBasename st b).folder = st.basefolder ++ '/' :: sanitizeBasename b ∧
    ∀ c ∈ sanitizeBasename b,
      ('a' ≤ c ∧ c ≤ 'z') ∨ ('A' ≤ c ∧ c ≤ 'Z') ∨ ('0' ≤ c ∧ c ≤ '9') ∨
        c = '_' ∨ c = '^' := by
  refine ⟨rfl, rfl, fun c hc => ?_⟩
  unfold sanitizeBasename at hc
  rw [List.mem_filter] at hc
  have h2 := hc.2
  unfold keepChar at h2
  simp only [Bool.or_eq_true, Bool.and_eq_true, decide_eq_true_eq, beq_iff_eq] at h2
  tauto

theorem setBasename_folder_props_w :
    (setBasename (setBasename ⟨['t'], ['t'], []⟩ ['a', '^', 'b']) ['a', '^', 'b'] =
        setBasename ⟨['t'], ['t'], []⟩ ['a', '^', 'b']) ∧
    (('a' ≤ '^' ∧ '^' ≤ 'z') ∨ ('A' ≤ '^' ∧ '^' ≤ 'Z') ∨ ('0' ≤ '^' ∧ '^' ≤ '9') ∨
      '^' = '_' ∨ '^' = '^') :=
  ⟨(setBasename_folder_props ⟨['t'], ['t'], []⟩ ['a', '^', 'b']).1,
   (setBasename_folder_props ⟨['t'], ['t'], []⟩ ['a', '^', 'b']).2.2 '^' (by decide)⟩

/-- Claim C7: the remote tile downloader raises `DownloadError`
immediately, with zero fetch attempts, when the URL template references
an unknown placeholder; otherwise it performs at most
`DOWNLOAD_RETRIES = 3` attempts, and when every attempt fails with a
transport error it raises `DownloadError` after exactly that budget. -/
theorem downloader_retry_budget (placeholders : List String) (attempt : ℕ → Option ℕ) :
    (¬(∀ p ∈ placeholders, p ∈ knownKeys) →
        downloader_tile placeholders attempt = (.error .unknownKeyword, 0)) ∧
    (downloader_tile placeholders attempt).2 ≤ DOWNLOAD_RETRIES ∧
    ((∀ p ∈ placeholders, p ∈ knownKeys) →
      (∀ k, k < DOWNLOAD_RETRIES → attempt k = none) →
        downloader_tile placeholders attempt = (.error .cannotDownload, DOWNLOAD_RETRIES)) := by
  refine ⟨fun hbad => ?_, ?_, fun hok hfail => ?_⟩
  · unfold downloader_tile
    rw [if_neg (by simpa [List.all_eq_true] using hbad)]
  · unfold downloader_tile
    split_ifs with hc
    · have hcount := downloadLoop_count attempt DOWNLOAD_RETRIES 0
      rcases hdl : downloadLoop attempt DOWNLOAD_RETRIES 0 with ⟨res, n⟩
      rw [hdl] at hcount
      cases res with
      | ok body => simpa using hcount
      | error u => simpa using hcount
    · simp
  · unfold downloader_tile
    rw [if_pos (by simpa [List.all_eq_true] using hok)]
    rw [downloadLoop_all_none attempt DOWNLOAD_RETRIES 0 (fun j hj => hfail j (by simpa using hj))]
    rfl

theorem downloader_retry_budget_w :
    downloader_tile ["q"] (fun _ => none) = (.error .unknownKeyword, 0) ∧
    downloader_tile ["z", "x"] (fun _ => none) = (.error .cannotDownload, DOWNLOAD_RETRIES) :=
  ⟨(downloader_retry_budget ["q"] (fun _ => none)).1 (by decide),
   (downloader_retry_budget ["z", "x"] (fun _ => none)).2.2 (by decide) (fun k _ => rfl)⟩

/-- Claim C8 (the code evaluated at the failing input): when the tile's
four nearest ancestor directories are all left empty, the pruning loop
of `Disk.remove` performs four successful `os.rmdir` calls — the loop
`while i <= 3` with `i` starting at 0 runs four iterations — not the
three levels stated by the claim and by the code's own comment; it does
stop at the first failed removal. -/
theorem removeParentLevels_overruns :
    removeParentLevels (fun _ => true) = 4 ∧
    removeParentLevels (fun _ => true) ≠ 3 ∧
    removeParentLevels (fun k => decide (k < 2)) = 2 := by
  decide

/-- Claim C9: the archive builder's `run()` computes its working set as
the set union of the tile lists of all registered coverages (here: two
coverages), so the resulting tile count `nbtiles` is the cardinality of
the union rather than the sum of the two lists' lengths, and an empty
union yields `EmptyCoverageError` — returned before any tile is
fetched, since in `run()` the check precedes the `prepare_tile` loop. -/
theorem runTileSet_union (tilesize : ℕ) (b1 b2 : List ℝ) (zl1 zl2 : List ℕ)
    (l1 l2 : List (ℕ × ℤ × ℤ))
    (h1 : tileslist tilesize b1 zl1 = .ok l1)
    (h2 : tileslist tilesize b2 zl2 = .ok l2) :
    runTileSet tilesize [(b1, zl1), (b2, zl2)] =
      if (l1.toFinset ∪ l2.toFinset).card = 0 then .error .emptyCoverage
      else .ok (l1.toFinset ∪ l2.toFinset) := by
  have hc : coverageUnion tilesize [(b1, zl1), (b2, zl2)] ∅ =
      .ok (l1.toFinset ∪ l2.toFinset) := by
    simp only [coverageUnion, h1, h2, Finset.empty_union]
  unfold runTileSet
  rw [hc]

theorem runTileSet_union_w :
    runTileSet 256 [([-180, -90, 180, 90], [0]), ([-180, -90, 180, 90], [0])] =
      .ok {((0 : ℕ), (0 : ℤ), (0 : ℤ))} ∧
    ({((0 : ℕ), (0 : ℤ), (0 : ℤ))} : Finset (ℕ × ℤ × ℤ)).card ≠
      [((0 : ℕ), (0 : ℤ), (0 : ℤ))].length + [((0 : ℕ), (0 : ℤ), (0 : ℤ))].length := by
  constructor
  · rw [runTileSet_union 256 [-180, -90, 180, 90] [-180, -90, 180, 90] [0] [0]
      [(0, 0, 0)] [(0, 0, 0)] world_tiles_z0 world_tiles_z0]
    rw [if_neg (by decide)]
    exact congrArg Except.ok (by decide)
  · decide

/-- The grid the exporter derives from the whole-world bounding box at
zoom 0: a single row containing the single tile `(0, 0)`. -/
theorem grid_world0 : grid_tiles 256 [-180, -90, 180, 90] 0 = .ok [[(0, 0)]] := by
  unfold grid_tiles
  rw [world_tiles_z0]
  show Except.ok (gridOf [(0, 0, 0)]) = Except.ok [[(0, 0)]]
  exact congrArg Except.ok (by decide)

/-- Claim C10: for every bounding box and zoom level, the image
exporter's output canvas dimensions are
`(length of the first grid row × tile size, number of grid rows × tile
size)`: the canvas width is determined solely by the first row — the
theorem imposes no hypothesis relating the lengths of the remaining
rows to the first, so a ragged grid is laid out without validation
rather than being rejected or padded. -/
theorem export_canvas_first_row (tilesize : ℕ) (bbox : List ℝ) (zoomlevel : ℕ)
    (grid : List (List (ℤ × ℤ))) (r0 : List (ℤ × ℤ)) (rest : List (List (ℤ × ℤ)))
    (hg : grid_tiles tilesize bbox zoomlevel = .ok grid) (hcons : grid = r0 :: rest) :
    ∃ pastes, exportLayout tilesize grid =
      some ((r0.length * tilesize, grid.length * tilesize), pastes) := by
  subst hcons
  exact ⟨_, rfl⟩

theorem export_canvas_first_row_w :
    ∃ pastes, exportLayout 256 [[(0, 0)]] = some ((1 * 256, 1 * 256), pastes) :=
  export_canvas_first_row 256 [-180, -90, 180, 90] 0 [[(0, 0)]] [(0, 0)] []
    grid_world0 rfl

end Landez
